import Mathlib

set_option maxRecDepth 40000

/-!
Verification of the GVM toolchain: a shallow embedding of the GVM bytecode
virtual machine (gvm.hpp), its disassembler's operand decoder (gdis.cpp) and
the infix-expression-to-GASM compiler (expr.hpp), together with theorems
settling the specification claims.

Conventions of the embedding:
* machine words are `Nat` values, reduced modulo `2 ^ 64` wherever the C++
  `uint64_t` arithmetic can wrap;
* the C++ member `io` (the 1024-word memory image) is called `mem` here and
  is represented as a total function from word indices to words, with every
  access the C++ performs guarded by the same `< 1024` bounds checks the
  source has; `PC` is `mem[0]`, `R` is `mem[1]`;
* the operand stack is a `List Nat` whose head is the top of the stack;
* the call stack (`context`) is a `List (List Nat)` of 8-word register
  snapshots, head = top;
* the host callback is modelled, following the specification, as a function
  transforming the memory image.
-/

/-- VM exit code: program terminated successfully. -/
def ERR_OK : Nat := 0
/-- VM exit code: invalid opcode. -/
def ERR_OPCODE : Nat := 1
/-- VM exit code: unexpectedly ran out of code bytes. -/
def ERR_CODESIZE : Nat := 2
/-- VM exit code: division by zero. -/
def ERR_DIVZERO : Nat := 3
/-- VM exit code: reached opcode run limit. -/
def ERR_OPLIMIT : Nat := 4
/-- VM exit code: stack is empty on pop. -/
def ERR_UNDERFLOW : Nat := 5
/-- VM exit code: RET without CALL to return from. -/
def ERR_RET : Nat := 6
/-- VM exit code: invalid memory address accessed. -/
def ERR_SEGFAULT : Nat := 7
/-- VM exit code: arithmetic underflow. -/
def ERR_NEGNUM : Nat := 8

/-- Size of the memory image in 64-bit words (C++ `IO_SIZE`). -/
def MEM_SIZE : Nat := 1024
/-- Number of register words saved by CALL and restored by RET. -/
def REG_SIZE : Nat := 8
/-- Default instruction budget of a `run` call. -/
def DEFAULT_OP_LIMIT : Nat := 50000
/-- One past the largest 64-bit machine word: `uint64_t` arithmetic wraps modulo this. -/
def U64 : Nat := 2 ^ 64

/-- The machine state of the GVM (class `GVM` of gvm.hpp).  The C++ member
`io` is named `mem` here; the `count` loop counter is threaded through the
run loop rather than stored, and the last-opcode debug field is omitted. -/
structure GVM where
  mem : Nat → Nat
  code : Array Nat
  stack : List Nat
  context : List (List Nat)
  term : Nat

/-- Read a cell of the memory image. -/
def aget (m : Nat → Nat) (i : Nat) : Nat := m i

/-- Write a cell of the memory image. -/
def aset (m : Nat → Nat) (i v : Nat) : Nat → Nat :=
  fun j => if j = i then v else m j

/-- The program counter: register `mem[0]`. -/
def GVM.pc (st : GVM) : Nat := aget st.mem 0

/-- Assign the program counter register `mem[0]` (a `uint64_t`, hence the wrap). -/
def GVM.setPC (st : GVM) (p : Nat) : GVM :=
  { st with mem := aset st.mem 0 (p % U64) }

/-- Assign the result register `mem[1]` (a `uint64_t`, hence the wrap). -/
def GVM.setR (st : GVM) (v : Nat) : GVM :=
  { st with mem := aset st.mem 1 (v % U64) }

/-- Set the exit code field. -/
def GVM.setTerm (st : GVM) (e : Nat) : GVM :=
  { st with term := e }

/-- `GVM::get` used as an rvalue: a bounds-checked memory read.  An index
outside the memory image sets `ERR_SEGFAULT` and reads register R instead. -/
def getVal (st : GVM) (idx : Nat) : Nat × GVM :=
  if idx < MEM_SIZE then (aget st.mem idx, st)
  else (aget st.mem 1, st.setTerm ERR_SEGFAULT)

/-- `GVM::get` used as an lvalue being assigned: a bounds-checked memory
write.  An index outside the memory image sets `ERR_SEGFAULT` and writes
register R instead. -/
def setMem (st : GVM) (idx v : Nat) : GVM :=
  if idx < MEM_SIZE then { st with mem := aset st.mem idx (v % U64) }
  else { st with term := ERR_SEGFAULT, mem := aset st.mem 1 (v % U64) }

/-- `GVM::get` used as the target of an in-place update (the `++`/`--` of
INC, DEC and VPUSH, VPOP): read-modify-write with the same bounds check. -/
def modMem (st : GVM) (idx : Nat) (f : Nat → Nat) : GVM :=
  if idx < MEM_SIZE then { st with mem := aset st.mem idx (f (aget st.mem idx) % U64) }
  else { st with term := ERR_SEGFAULT, mem := aset st.mem 1 (f (aget st.mem 1) % U64) }

/-- `GVM::push`: push a word onto the operand stack. -/
def pushVal (st : GVM) (v : Nat) : GVM :=
  { st with stack := (v % U64) :: st.stack }

/-- `GVM::pop`: pop the operand stack; an empty stack sets `ERR_UNDERFLOW`
and yields 0. -/
def popVal (st : GVM) : Nat × GVM :=
  match st.stack with
  | [] => (0, st.setTerm ERR_UNDERFLOW)
  | v :: rest => (v, { st with stack := rest })

/-- One byte of the code buffer (bytes are `uint8_t`, hence the `% 256`). -/
def byteAt (code : Array Nat) (p : Nat) : Nat :=
  code.getD p 0 % 256

/-- Little-endian value of the `v` bytes of `code` starting at `p`
(the `memcpy` of `GVM::read`). -/
def leBytes (code : Array Nat) (p : Nat) : Nat → Nat
  | 0 => 0
  | w + 1 => byteAt code p + 256 * leBytes code (p + 1) w

/-- `GVM::read`: decode one operand at the current PC.  With `jumpSkip` the
control byte is not consumed and acts as if it were `2` (a plain 2-byte
little-endian address).  Returns the operand value and the updated state. -/
def readOp (st : GVM) (jumpSkip : Bool) : Nat × GVM :=
  if st.code.size ≤ st.pc then (0, st.setTerm ERR_CODESIZE)
  else
    let control := if jumpSkip then 2 else byteAt st.code st.pc
    let st1 := if jumpSkip then st else st.setPC (st.pc + 1)
    let v := control % 64
    let regptr := 128 ≤ control
    let shortval := control / 64 % 2 = 1
    if shortval then
      if regptr then getVal st1 v else (v, st1)
    else if st.code.size < st1.pc + v then (0, st1.setTerm ERR_CODESIZE)
    else
      let val := leBytes st.code st1.pc v % U64
      let st2 := st1.setPC (st1.pc + v)
      if regptr then getVal st2 val else (val, st2)

/-- The register snapshot taken by CALL: the first 8 words of the memory
image (the register file). -/
def regSnapshot (mem : Nat → Nat) : List Nat :=
  (List.range REG_SIZE).map (fun i => aget mem i)

/-- The register restore performed by RET: copy an 8-word snapshot back over
the first 8 words of the memory image. -/
def restoreRegs (mem : Nat → Nat) (snap : List Nat) : Nat → Nat :=
  (List.range REG_SIZE).foldl (fun a i => aset a i (snap.getD i 0)) mem

/-- Dispatch one already-fetched opcode byte; `s` is the state after the
opcode fetch advanced PC.  Mirrors the `switch` of `GVM::run`, including the
fall-through-free structure of each `case`.  `hc` is the host callback,
modelled (per the specification) as a transformer of the memory image. -/
def execOp (hc : (Nat → Nat) → Nat → Nat) (opcode : Nat) (s : GVM) : GVM :=
  if opcode = 0 then s                                          -- NOP
  else if opcode = 1 then s.setPC (U64 - 1)                     -- TERM
  else if opcode = 2 then                                       -- SET
    let r1 := readOp s false
    let r2 := readOp r1.2 false
    setMem r2.2 r1.1 r2.1
  else if opcode = 3 then                                       -- JMP
    let r := readOp s true
    r.2.setPC r.1
  else if opcode = 4 then                                       -- ADD
    let r1 := readOp s false
    let r2 := readOp r1.2 false
    r2.2.setR (r1.1 + r2.1)
  else if opcode = 132 then                                     -- ADD | STACK
    let p2 := popVal s
    let p1 := popVal p2.2
    pushVal p1.2 (p1.1 + p2.1)
  else if opcode = 5 then                                       -- SUB
    let r1 := readOp s false
    let r2 := readOp r1.2 false
    let s' := r2.2.setR (r1.1 + U64 - r2.1)
    if r1.1 < r2.1 then s'.setTerm ERR_NEGNUM else s'
  else if opcode = 133 then                                     -- SUB | STACK
    let p2 := popVal s
    let p1 := popVal p2.2
    let s' := pushVal p1.2 (p1.1 + U64 - p2.1)
    if p1.1 < p2.1 then s'.setTerm ERR_NEGNUM else s'
  else if opcode = 6 then                                       -- MUL
    let r1 := readOp s false
    let r2 := readOp r1.2 false
    r2.2.setR (r1.1 * r2.1)
  else if opcode = 134 then                                     -- MUL | STACK
    let p2 := popVal s
    let p1 := popVal p2.2
    pushVal p1.2 (p1.1 * p2.1)
  else if opcode = 7 then                                       -- DIV
    let r1 := readOp s false
    let r2 := readOp r1.2 false
    if r2.1 ≠ 0 then r2.2.setR (r1.1 / r2.1) else r2.2.setTerm ERR_DIVZERO
  else if opcode = 135 then                                     -- DIV | STACK
    let p2 := popVal s
    let p1 := popVal p2.2
    if p2.1 ≠ 0 then pushVal p1.2 (p1.1 / p2.1) else p1.2.setTerm ERR_DIVZERO
  else if opcode = 8 then                                       -- MOD
    let r1 := readOp s false
    let r2 := readOp r1.2 false
    if r2.1 ≠ 0 then r2.2.setR (r1.1 % r2.1) else r2.2.setTerm ERR_DIVZERO
  else if opcode = 136 then                                     -- MOD | STACK
    let p2 := popVal s
    let p1 := popVal p2.2
    if p2.1 ≠ 0 then pushVal p1.2 (p1.1 % p2.1) else p1.2.setTerm ERR_DIVZERO
  else if opcode = 9 then                                       -- OR
    let r1 := readOp s false
    let r2 := readOp r1.2 false
    r2.2.setR (r1.1 ||| r2.1)
  else if opcode = 137 then                                     -- OR | STACK
    let p2 := popVal s
    let p1 := popVal p2.2
    pushVal p1.2 (p1.1 ||| p2.1)
  else if opcode = 10 then                                      -- ANDL
    let r1 := readOp s false
    let r2 := readOp r1.2 false
    r2.2.setR (if r1.1 ≠ 0 ∧ r2.1 ≠ 0 then 1 else 0)
  else if opcode = 138 then                                     -- ANDL | STACK
    -- mirrors the source exactly: the result is written to R, not pushed
    let p2 := popVal s
    let p1 := popVal p2.2
    p1.2.setR (if p1.1 ≠ 0 ∧ p2.1 ≠ 0 then 1 else 0)
  else if opcode = 11 then                                      -- XOR
    let r1 := readOp s false
    let r2 := readOp r1.2 false
    r2.2.setR (r1.1 ^^^ r2.1)
  else if opcode = 139 then                                     -- XOR | STACK
    let p2 := popVal s
    let p1 := popVal p2.2
    pushVal p1.2 (p1.1 ^^^ p2.1)
  else if opcode = 12 then                                      -- NOT
    let r := readOp s false
    r.2.setR (if r.1 = 0 then 1 else 0)
  else if opcode = 140 then                                     -- NOT | STACK
    let p := popVal s
    pushVal p.2 (if p.1 = 0 then 1 else 0)
  else if opcode = 13 then                                      -- SHL
    let r1 := readOp s false
    let r2 := readOp r1.2 false
    r2.2.setR (r1.1 <<< r2.1)
  else if opcode = 141 then                                     -- SHL | STACK
    let p2 := popVal s
    let p1 := popVal p2.2
    pushVal p1.2 (p1.1 <<< p2.1)
  else if opcode = 14 then                                      -- SHR
    let r1 := readOp s false
    let r2 := readOp r1.2 false
    r2.2.setR (r1.1 >>> r2.1)
  else if opcode = 142 then                                     -- SHR | STACK
    let p2 := popVal s
    let p1 := popVal p2.2
    pushVal p1.2 (p1.1 >>> p2.1)
  else if opcode = 15 then                                      -- INC
    let r := readOp s false
    modMem r.2 r.1 (fun x => x + 1)
  else if opcode = 16 then                                      -- DEC
    let r := readOp s false
    modMem r.2 r.1 (fun x => x + U64 - 1)
  else if opcode = 17 then                                      -- PUSH
    let r := readOp s false
    pushVal r.2 r.1
  else if opcode = 18 then                                      -- POP
    let r := readOp s false
    let p := popVal r.2
    setMem p.2 r.1 p.1
  else if opcode = 19 then                                      -- AND
    let r1 := readOp s false
    let r2 := readOp r1.2 false
    r2.2.setR (r1.1 &&& r2.1)
  else if opcode = 147 then                                     -- AND | STACK
    let p2 := popVal s
    let p1 := popVal p2.2
    pushVal p1.2 (p1.1 &&& p2.1)
  else if opcode = 20 then                                      -- HOST
    { s with mem := hc s.mem }
  else if opcode = 21 then                                      -- VPUSH
    let r1 := readOp s false
    let r2 := readOp r1.2 false
    let s1 := modMem r2.2 r1.1 (fun x => x + 1)
    let g := getVal s1 r1.1
    setMem g.2 g.1 r2.1
  else if opcode = 22 then                                      -- VPOP
    let r1 := readOp s false
    let r2 := readOp r1.2 false
    let g := getVal r2.2 r1.1
    let s1 := setMem g.2 r2.1 g.1
    modMem s1 r1.1 (fun x => x + U64 - 1)
  else if opcode = 23 then                                      -- CALL
    let r := readOp s true
    let s1 := { r.2 with context := regSnapshot r.2.mem :: r.2.context }
    s1.setPC r.1
  else if opcode = 24 then                                      -- RET
    let r := readOp s false
    match r.2.context with
    | [] => r.2.setTerm ERR_RET
    | snap :: rest =>
      { r.2 with mem := aset (restoreRegs r.2.mem snap) 1 (r.1 % U64),
                 context := rest }
  else if opcode = 25 then                                      -- JF
    let r := readOp s false
    if r.1 = 0 then
      let j := readOp r.2 true
      j.2.setPC j.1
    else r.2.setPC (r.2.pc + 2)
  else if opcode = 153 then                                     -- JF | STACK
    let p := popVal s
    if p.1 = 0 then
      let j := readOp p.2 true
      j.2.setPC j.1
    else p.2.setPC (p.2.pc + 2)
  else if opcode = 26 then                                      -- JT
    let r := readOp s false
    if r.1 = 0 then r.2.setPC (r.2.pc + 2)
    else
      let j := readOp r.2 true
      j.2.setPC j.1
  else if opcode = 154 then                                     -- JT | STACK
    let p := popVal s
    if p.1 = 0 then p.2.setPC (p.2.pc + 2)
    else
      let j := readOp p.2 true
      j.2.setPC j.1
  else if opcode = 27 then                                      -- EQ
    let r1 := readOp s false
    let r2 := readOp r1.2 false
    r2.2.setR (if r1.1 = r2.1 then 1 else 0)
  else if opcode = 155 then                                     -- EQ | STACK
    let p2 := popVal s
    let p1 := popVal p2.2
    pushVal p1.2 (if p1.1 = p2.1 then 1 else 0)
  else if opcode = 28 then                                      -- NE
    let r1 := readOp s false
    let r2 := readOp r1.2 false
    r2.2.setR (if r1.1 ≠ r2.1 then 1 else 0)
  else if opcode = 156 then                                     -- NE | STACK
    let p2 := popVal s
    let p1 := popVal p2.2
    pushVal p1.2 (if p1.1 ≠ p2.1 then 1 else 0)
  else if opcode = 29 then                                      -- GT
    let r1 := readOp s false
    let r2 := readOp r1.2 false
    r2.2.setR (if r2.1 < r1.1 then 1 else 0)
  else if opcode = 157 then                                     -- GT | STACK
    let p2 := popVal s
    let p1 := popVal p2.2
    pushVal p1.2 (if p2.1 < p1.1 then 1 else 0)
  else if opcode = 30 then                                      -- LT
    let r1 := readOp s false
    let r2 := readOp r1.2 false
    r2.2.setR (if r1.1 < r2.1 then 1 else 0)
  else if opcode = 158 then                                     -- LT | STACK
    let p2 := popVal s
    let p1 := popVal p2.2
    pushVal p1.2 (if p1.1 < p2.1 then 1 else 0)
  else if opcode = 31 then                                      -- GE
    let r1 := readOp s false
    let r2 := readOp r1.2 false
    r2.2.setR (if r2.1 ≤ r1.1 then 1 else 0)
  else if opcode = 159 then                                     -- GE | STACK
    let p2 := popVal s
    let p1 := popVal p2.2
    pushVal p1.2 (if p2.1 ≤ p1.1 then 1 else 0)
  else if opcode = 32 then                                      -- LE
    let r1 := readOp s false
    let r2 := readOp r1.2 false
    r2.2.setR (if r1.1 ≤ r2.1 then 1 else 0)
  else if opcode = 160 then                                     -- LE | STACK
    let p2 := popVal s
    let p1 := popVal p2.2
    pushVal p1.2 (if p1.1 ≤ p2.1 then 1 else 0)
  else if opcode = 33 then                                      -- NEG
    let r := readOp s false
    r.2.setR (U64 - 1 - r.1)
  else if opcode = 161 then                                     -- NEG | STACK
    let p := popVal s
    pushVal p.2 (U64 - 1 - p.1)
  else if opcode = 34 then                                      -- ORL
    let r1 := readOp s false
    let r2 := readOp r1.2 false
    r2.2.setR (if r1.1 ≠ 0 ∨ r2.1 ≠ 0 then 1 else 0)
  else if opcode = 162 then                                     -- ORL | STACK
    let p2 := popVal s
    let p1 := popVal p2.2
    pushVal p1.2 (if p1.1 ≠ 0 ∨ p2.1 ≠ 0 then 1 else 0)
  else s.setTerm ERR_OPCODE

/-- One iteration of the run loop past its guard: fetch the opcode byte,
advance PC, dispatch. -/
def step (hc : (Nat → Nat) → Nat → Nat) (st : GVM) : GVM :=
  execOp hc (byteAt st.code st.pc) (st.setPC (st.pc + 1))

/-- At most `n` guarded iterations of the run loop, ignoring the instruction
budget: stop as soon as `term` is nonzero or PC falls outside the code. -/
def iterStep (hc : (Nat → Nat) → Nat → Nat) : Nat → GVM → GVM
  | 0, st => st
  | n + 1, st =>
    if st.term = 0 ∧ st.pc < st.code.size then iterStep hc n (step hc st) else st

/-- The run loop of `GVM::run` with the instruction counter `cnt` threaded
explicitly; `fuel` is an upper bound on the remaining iterations (the loop
itself stops via the budget check, so `limit + 1` fuel is always enough). -/
def runAux (hc : (Nat → Nat) → Nat → Nat) (limit : Nat) : Nat → Nat → GVM → GVM
  | 0, _, st => st
  | fuel + 1, cnt, st =>
    if st.term = 0 ∧ st.pc < st.code.size then
      if limit < cnt + 1 then st.setTerm ERR_OPLIMIT
      else runAux hc limit fuel (cnt + 1) (step hc st)
    else st

/-- `GVM::run(limit)`: reset `term` and the instruction counter, then run the
dispatch loop under the instruction budget. -/
def GVM.run (hc : (Nat → Nat) → Nat → Nat) (limit : Nat) (st : GVM) : GVM :=
  runAux hc limit (limit + 1) 0 (st.setTerm ERR_OK)

/-- `GVM::run()` with the default instruction budget. -/
def GVM.runDefault (hc : (Nat → Nat) → Nat → Nat) (st : GVM) : GVM :=
  GVM.run hc DEFAULT_OP_LIMIT st

/-- A fresh zeroed machine: 1024 zero words of memory with PC set, the given
code bytes, the given operand stack, an empty call stack. -/
def mkGVM (code : List Nat) (pc : Nat) (stk : List Nat) : GVM :=
  { mem := aset (fun _ => 0) 0 pc
    code := code.toArray
    stack := stk
    context := []
    term := 0 }

/-- The identity host callback (a host that does nothing). -/
def hcId : (Nat → Nat) → Nat → Nat := fun a => a

/-! ## The expression compiler (expr.hpp) -/

/-- Token kinds of the expression compiler (enum `Token::Type`). -/
inductive TType where
  | unknown
  | number
  | register
  | operation
  | leftParen
  | rightParen
deriving Repr, DecidableEq

/-- A lexer token (class `Token`): kind, lexeme, precedence (-1 when not an
operator), right-associativity and unary flags. -/
structure Token where
  type : TType
  str : String
  precedence : Int
  rightAssociative : Bool
  unary : Bool
deriving Repr, DecidableEq

/-- Classify one operator character `c` (with lookahead `c2`, the following
character or the NUL terminator) as in the big `switch` of `exprToTokens`.
`unaryPos` tells whether the token list is empty or ends with an operator or
a left paren (the unary-position test of the source).  Returns kind,
precedence, right-associativity, unary flag and consumed length. -/
def classifyOp (c c2 : Char) (unaryPos : Bool) :
    Except String (TType × Int × Bool × Bool × Nat) :=
  if c = '(' then .ok (.leftParen, -1, false, false, 1)
  else if c = ')' then .ok (.rightParen, -1, false, false, 1)
  else if c = '^' then .ok (.operation, 4, false, false, 1)
  else if c = '*' then .ok (.operation, 10, false, false, 1)
  else if c = '/' then .ok (.operation, 10, false, false, 1)
  else if c = '%' then .ok (.operation, 10, false, false, 1)
  else if c = '+' then .ok (.operation, 9, false, false, 1)
  else if c = '-' then
    if unaryPos then .error "ERROR: - is not a unary operator"
    else .ok (.operation, 9, false, false, 1)
  else if c = '~' then
    if unaryPos then .ok (.operation, 11, false, true, 1)
    else .error "ERROR: ~ is not a binary operator"
  else if c = '&' then
    if c2 = '&' then .ok (.operation, 2, false, false, 2)
    else .ok (.operation, 5, false, false, 1)
  else if c = '|' then
    -- the source treats | and || identically: || only consumes two chars
    if c2 = '|' then .ok (.operation, 3, false, false, 2)
    else .ok (.operation, 3, false, false, 1)
  else if c = '<' then
    if c2 = '<' then .ok (.operation, 8, false, false, 2)
    else if c2 = '=' then .ok (.operation, 7, false, false, 2)
    else .ok (.operation, 7, false, false, 1)
  else if c = '>' then
    if c2 = '>' then .ok (.operation, 8, false, false, 2)
    else if c2 = '=' then .ok (.operation, 7, false, false, 2)
    else .ok (.operation, 7, false, false, 1)
  else if c = '=' then
    if c2 = '=' then .ok (.operation, 6, false, false, 2)
    else .ok (.unknown, -1, false, false, 1)
  else if c = '!' then
    if c2 = '=' then .ok (.operation, 6, false, false, 2)
    else if unaryPos then .ok (.operation, 11, false, true, 1)
    else .error "ERROR: ! is not a binary operator"
  else .ok (.unknown, -1, false, false, 1)

/-- Is the previous-token context a unary position (no token yet, or the last
token is an operator or a left paren)?  `acc` holds the tokens lexed so far
in reverse. -/
def unaryPosition (acc : List Token) : Bool :=
  match acc with
  | [] => true
  | t :: _ => t.type = TType.operation ∨ t.type = TType.leftParen

/-- The lexer loop of `exprToTokens`, accumulating tokens in reverse.
Each iteration consumes at least one character, so the `fuel` parameter
(structural-recursion bookkeeping only) never runs out when it exceeds the
length of the input; `exprToTokensAux_fuel` proves the result is independent
of the fuel. -/
def exprToTokensAux : Nat → List Char → List Token → Except String (List Token)
  | 0, _, _ => .error "ERROR: out of fuel (unreachable)"
  | _ + 1, [], acc => .ok acc.reverse
  | fuel + 1, c :: rest, acc =>
    if c = ' ' ∨ c = '\t' then exprToTokensAux fuel rest acc
    else if c = '@' then
      let ds := rest.takeWhile Char.isDigit
      let rest2 := rest.dropWhile Char.isDigit
      exprToTokensAux fuel rest2
        ({ type := .register, str := String.mk ds, precedence := -1,
           rightAssociative := false, unary := false } :: acc)
    else if c.isDigit then
      let ds := c :: rest.takeWhile Char.isDigit
      let rest2 := rest.dropWhile Char.isDigit
      exprToTokensAux fuel rest2
        ({ type := .number, str := String.mk ds, precedence := -1,
           rightAssociative := false, unary := false } :: acc)
    else
      let c2 := rest.headD (Char.ofNat 0)
      match classifyOp c c2 (unaryPosition acc) with
      | .error e => .error e
      | .ok (t, prec, ra, un, opsz) =>
        let s := if opsz = 2 then String.mk [c, c2] else String.mk [c]
        let rest2 := if opsz = 2 then rest.drop 1 else rest
        exprToTokensAux fuel rest2
          ({ type := t, str := s, precedence := prec,
             rightAssociative := ra, unary := un } :: acc)

/-- `exprToTokens`: tokenize an infix expression. -/
def exprToTokens (expr : String) : Except String (List Token) :=
  exprToTokensAux (expr.toList.length + 1) expr.toList []

/-- The inner while loop of the operator case of `shuntingYard`: pop
operators bound at least as tightly (per the associativity-aware test of the
source) off the operator stack.  Returns the popped operators in pop order
and the remaining stack. -/
def popOps (o1 : Token) : List Token → List Token × List Token
  | [] => ([], [])
  | o2 :: s =>
    if (¬ o1.rightAssociative ∧ o1.precedence ≤ o2.precedence) ∨
       (o1.rightAssociative ∧ o1.precedence < o2.precedence) then
      let r := popOps o1 s
      (o2 :: r.1, r.2)
    else ([], o2 :: s)

/-- The right-paren case of `shuntingYard`: pop operators until a left paren
tops the stack.  Returns the popped tokens in pop order, the remaining stack
and whether anything was popped (the `match` flag of the source). -/
def popUntilParen : List Token → List Token × List Token × Bool
  | [] => ([], [], false)
  | t :: s =>
    if t.type = TType.leftParen then ([], t :: s, false)
    else
      let r := popUntilParen s
      (t :: r.1, r.2.1, true)

/-- The end-of-input drain of `shuntingYard`: pop the remaining operator
stack onto the queue, failing on a leftover left paren. -/
def finishSY (queueRev : List Token) : List Token → Except String (List Token)
  | [] => .ok queueRev.reverse
  | t :: s =>
    if t.type = TType.leftParen then .error "ERROR: Mismatched parentheses error"
    else finishSY (t :: queueRev) s

/-- The main loop of `shuntingYard` over the token list; `queueRev` is the
output queue in reverse, `stk` the operator stack (head = top). -/
def shuntingYardAux : List Token → List Token → List Token → Except String (List Token)
  | [], queueRev, stk => finishSY queueRev stk
  | tok :: rest, queueRev, stk =>
    match tok.type with
    | .register => shuntingYardAux rest (tok :: queueRev) stk
    | .number => shuntingYardAux rest (tok :: queueRev) stk
    | .operation =>
      let r := popOps tok stk
      shuntingYardAux rest (r.1.reverse ++ queueRev) (tok :: r.2)
    | .leftParen => shuntingYardAux rest queueRev (tok :: stk)
    | .rightParen =>
      let r := popUntilParen stk
      if ¬ r.2.2 ∧ r.2.1 = [] then .error "ERROR: RightParen error"
      else
        -- the source then unconditionally pops the left paren; popping an
        -- empty vector is undefined behavior in C++, surfaced as an error
        match r.2.1 with
        | [] => .error "ERROR: RightParen underflow (undefined behavior in the source)"
        | _ :: s2 => shuntingYardAux rest (r.1.reverse ++ queueRev) s2
    | .unknown => .error ("ERROR: (token): " ++ tok.str)

/-- `shuntingYard`: convert the token list to postfix order. -/
def shuntingYard (tokens : List Token) : Except String (List Token) :=
  shuntingYardAux tokens [] []

/-- The mnemonic emitted by `expressionToGASM` for a binary operator lexeme:
the nested `switch` over the first character and the lookahead `c2`
(a space when the lexeme is a single character). -/
def binaryMnemonic (s : String) : Except String String :=
  match s.toList with
  | [] => .error "ERROR: Operator error (2)"
  | c :: rest =>
    let c2 := rest.headD ' '
    if c = '^' then .ok "XOR"
    else if c = '*' then .ok "MUL"
    else if c = '/' then .ok "DIV"
    else if c = '+' then .ok "ADD"
    else if c = '-' then .ok "SUB"
    else if c = '%' then .ok "MOD"
    else if c = '&' then
      if c2 = '&' then .ok "BAND"
      else if c2 = ' ' then .ok "AND"
      else .error "ERROR: Operator error (8)"
    else if c = '|' then
      if c2 = '|' ∨ c2 = ' ' then .ok "OR"
      else .error "ERROR: Operator error (7)"
    else if c = '<' then
      if c2 = '<' then .ok "SHL"
      else if c2 = '=' then .ok "LE"
      else if c2 = ' ' then .ok "LT"
      else .error "ERROR: Operator error (6)"
    else if c = '>' then
      if c2 = '>' then .ok "SHR"
      else if c2 = '=' then .ok "GE"
      else if c2 = ' ' then .ok "GT"
      else .error "ERROR: Operator error (5)"
    else if c = '=' then
      if c2 = '=' then .ok "EQ"
      else .error "ERROR: Operator error (3)"
    else if c = '!' then
      if c2 = '=' then .ok "NE"
      else .error "ERROR: Operator error (4)"
    else .error "ERROR: Operator error (2)"

/-- A dummy number token: the arity-checking stack of the emission walk
pushes these in place of binary results (the source pushes lexeme "0"; for
unary operators it pushes the operand token back with a dummy lexeme that no
output ever depends on — modelled by pushing the operand token unchanged). -/
def zeroToken : Token :=
  { type := .number, str := "0", precedence := -1,
    rightAssociative := false, unary := false }

/-- The emission walk of `expressionToGASM` over the postfix queue.  The
emitted program is returned as the list of instruction strings in order (the
source streams them separated by a newline or space); `stk` is the dummy
arity-checking stack.  Popping an empty dummy stack is undefined behavior in
the C++ (vector back on empty), surfaced as an error. -/
def emitGASM : List Token → List Token → List String → Except String (List String)
  | [], _, out => .ok out.reverse
  | t :: rest, stk, out =>
    match t.type with
    | .register => emitGASM rest (t :: stk) (("PUSH @" ++ t.str) :: out)
    | .number => emitGASM rest (t :: stk) (("PUSH " ++ t.str) :: out)
    | .operation =>
      if t.unary then
        match stk with
        | [] => .error "ERROR: stack underflow (undefined behavior in the source)"
        | rhs :: s2 =>
          if t.str.toList.headD ' ' = '~' then emitGASM rest (rhs :: s2) ("NEG" :: out)
          else if t.str.toList.headD ' ' = '!' then emitGASM rest (rhs :: s2) ("NOT" :: out)
          else .error "ERROR: Operator error"
      else
        match stk with
        | _ :: _ :: s2 =>
          match binaryMnemonic t.str with
          | .ok m => emitGASM rest (zeroToken :: s2) (m :: out)
          | .error e => .error e
        | _ => .error "ERROR: stack underflow (undefined behavior in the source)"
    | _ => .error "ERROR: Token error"

/-- `expressionToGASM`: compile an infix expression to the emitted GASM
program, as the list of emitted instructions in order. -/
def expressionToGASM (expr : String) : Except String (List String) :=
  match exprToTokens expr with
  | .error e => .error e
  | .ok tokens =>
    match shuntingYard tokens with
    | .error e => .error e
    | .ok queue => emitGASM queue [] []

/-- Decidable equality for the compiler result type. -/
instance (priority := low) instDecEqExceptStr {α : Type} [DecidableEq α] :
    DecidableEq (Except String α) := fun a b =>
  match a, b with
  | .error e, .error f =>
    if h : e = f then .isTrue (by rw [h]) else .isFalse (by intro hc; cases hc; exact h rfl)
  | .error _, .ok _ => .isFalse (by intro hc; cases hc)
  | .ok _, .error _ => .isFalse (by intro hc; cases hc)
  | .ok x, .ok y =>
    if h : x = y then .isTrue (by rw [h]) else .isFalse (by intro hc; cases hc; exact h rfl)

/-! ## The disassembler operand decoder (gdis.cpp) -/

/-- `GDisassembler::read`: decode one operand at offset `pc` of the code
buffer.  Returns the raw decoded value, whether the control byte had the
REG_PTR bit (printed as an `@` prefix), and the offset after the operand;
`none` models the fatal unexpected-end-of-code exit. -/
def disRead (code : Array Nat) (pc : Nat) (jumpSkip : Bool) :
    Option (Nat × Bool × Nat) :=
  if code.size ≤ pc then none
  else
    let control := if jumpSkip then 2 else byteAt code pc
    let pc1 := if jumpSkip then pc else pc + 1
    let v := control % 64
    let regptr := 128 ≤ control
    let shortval := control / 64 % 2 = 1
    if shortval then some (v, regptr, pc1)
    else if code.size < pc1 + v then none
    else some (leBytes code pc1 v % U64, regptr, pc1 + v)

/-! ## Concrete machines used by the claim theorems -/

/-- A machine about to decode the operands of `[0x02, 0xC3, 0x6A]`
(`SET @3 42`), with `mem[3] = 7` so that the REG_PTR indirection is visible. -/
def stSet3 : GVM :=
  { mkGVM [2, 195, 106] 1 [] with
    mem := aset (aset (fun _ => 0) 0 1) 3 7 }

/-- A machine about to execute an inline-form JF whose condition operand is
the short literal 1 (branch not taken). -/
def stJFw : GVM := mkGVM [25, 65, 9, 9] 0 []

/-- The state after stJFw consumes its condition operand. -/
def s1JFw : GVM := (readOp (stJFw.setPC (stJFw.pc + 1)) false).2

/-- A machine about to execute an inline-form JF whose condition operand is
the short literal 0 (branch taken), targeting address 5. -/
def stJFt : GVM := mkGVM [25, 64, 5, 0] 0 []

/-- The state after stJFt consumes its condition operand. -/
def s1JFt : GVM := (readOp (stJFt.setPC (stJFt.pc + 1)) false).2

/-- A machine about to execute CALL 3. -/
def stCallw : GVM := mkGVM [23, 3, 0] 0 []

/-- A recognizable register file for the RET restoration witness. -/
def memRetw : Nat → Nat := fun i => 100 + i

/-- A machine about to execute RET 0 with one saved register snapshot. -/
def stRetw : GVM := { mkGVM [24, 64] 0 [] with context := [regSnapshot memRetw] }

/-- The state after stRetw consumes the RET operand. -/
def s1Retw : GVM := (readOp (stRetw.setPC (stRetw.pc + 1)) false).2

/-- The decoded RET operand of stRetw. -/
def vRetw : Nat := (readOp (stRetw.setPC (stRetw.pc + 1)) false).1

/-- A machine about to execute POP with destination literal 3 on an empty
operand stack; `mem[3]` starts at 7 so the overwrite is visible. -/
def stPopw : GVM := { mkGVM [18, 67] 0 [] with mem := aset (aset (fun _ => 0) 0 0) 3 7 }

/-- The state after stPopw consumes the destination operand. -/
def s1Popw : GVM := (readOp (stPopw.setPC (stPopw.pc + 1)) false).2

/-- The decoded POP destination of stPopw (the literal 3). -/
def dstPopw : Nat := (readOp (stPopw.setPC (stPopw.pc + 1)) false).1

/-- A machine about to execute SET 2000 5 — an out-of-bounds destination. -/
def stSegw : GVM := mkGVM [2, 2, 208, 7, 69] 0 []

/-- The state after stSegw consumes the destination operand. -/
def s1Segw : GVM := (readOp (stSegw.setPC (stSegw.pc + 1)) false).2

/-- The decoded SET destination of stSegw (the literal 2000). -/
def dstSegw : Nat := (readOp (stSegw.setPC (stSegw.pc + 1)) false).1

/-- The state after stSegw consumes both operands. -/
def s2Segw : GVM := (readOp s1Segw false).2

/-- The decoded SET source of stSegw (the literal 5). -/
def srcSegw : Nat := (readOp s1Segw false).1

/-! ## Basic lemmas about the embedding -/

/-- Dropping a prefix never lengthens a list (termination helper for the
lexer loop). -/
theorem dropWhile_length_le (p : Char → Bool) :
    ∀ l : List Char, (List.dropWhile p l).length ≤ l.length := by
  intro l
  induction l with
  | nil => simp [List.dropWhile]
  | cons c cs ih =>
    simp only [List.dropWhile]
    split
    · exact Nat.le_succ_of_le ih
    · exact Nat.le_refl _

/-- The lexer loop never exhausts its fuel: any two fuels above the input
length give the same result. -/
theorem exprToTokensAux_fuel :
    ∀ f1 f2 : Nat, ∀ (cs : List Char) (acc : List Token),
      cs.length < f1 → cs.length < f2 →
      exprToTokensAux f1 cs acc = exprToTokensAux f2 cs acc := by
  intro f1
  induction f1 with
  | zero => intro f2 cs acc h1 _; exact absurd h1 (Nat.not_lt_zero _)
  | succ n ih =>
    intro f2 cs acc h1 h2
    match f2, cs with
    | 0, cs => exact absurd h2 (Nat.not_lt_zero _)
    | m + 1, [] => rfl
    | m + 1, c :: rest =>
      have hr1 : rest.length < n := by
        simp only [List.length_cons] at h1; omega
      have hr2 : rest.length < m := by
        simp only [List.length_cons] at h2; omega
      have hd1 : (rest.dropWhile Char.isDigit).length < n :=
        Nat.lt_of_le_of_lt (dropWhile_length_le Char.isDigit rest) hr1
      have hd2 : (rest.dropWhile Char.isDigit).length < m :=
        Nat.lt_of_le_of_lt (dropWhile_length_le Char.isDigit rest) hr2
      simp only [exprToTokensAux]
      by_cases hb : c = ' ' ∨ c = '\t'
      · rw [if_pos hb, if_pos hb]
        exact ih m rest acc hr1 hr2
      · rw [if_neg hb, if_neg hb]
        by_cases ha : c = '@'
        · rw [if_pos ha, if_pos ha]
          exact ih m _ _ hd1 hd2
        · rw [if_neg ha, if_neg ha]
          by_cases hdig : c.isDigit
          · rw [if_pos hdig, if_pos hdig]
            exact ih m _ _ hd1 hd2
          · rw [if_neg hdig, if_neg hdig]
            cases hcl : classifyOp c (rest.headD (Char.ofNat 0)) (unaryPosition acc) with
            | error e => rfl
            | ok q =>
              obtain ⟨t, prec, ra, un, opsz⟩ := q
              by_cases ho : opsz = 2
              · simp only [ho, if_pos rfl]
                exact ih m _ _
                  (Nat.lt_of_le_of_lt (by simp [List.length_drop]) hr1)
                  (Nat.lt_of_le_of_lt (by simp [List.length_drop]) hr2)
              · simp only [if_neg ho]
                exact ih m rest _ hr1 hr2


/-- Reading back a written cell. -/
theorem aget_aset_eq (m : Nat → Nat) (i v : Nat) :
    aget (aset m i v) i = v := by
  simp [aget, aset]

/-- Reading a cell other than the written one. -/
theorem aget_aset_ne (m : Nat → Nat) (i j v : Nat) (h : i ≠ j) :
    aget (aset m i v) j = aget m j := by
  unfold aget aset
  exact if_neg (fun hc => h hc.symm)

/-- Overwriting the same cell twice keeps only the second write. -/
theorem aset_aset (m : Nat → Nat) (i v w : Nat) :
    aset (aset m i v) i w = aset m i w := by
  funext j
  unfold aset
  by_cases hj : j = i
  · rw [if_pos hj, if_pos hj]
  · rw [if_neg hj, if_neg hj, if_neg hj]

/-- Assigning PC twice in a row keeps only the second assignment. -/
theorem setPC_setPC (st : GVM) (a b : Nat) :
    (st.setPC a).setPC b = st.setPC b := by
  unfold GVM.setPC
  simp [aset_aset]

/-- Assigning PC leaves the code, stack, call stack and exit code alone. -/
theorem setPC_fields (st : GVM) (a : Nat) :
    (st.setPC a).code = st.code ∧ (st.setPC a).stack = st.stack ∧
    (st.setPC a).context = st.context ∧ (st.setPC a).term = st.term := by
  unfold GVM.setPC
  exact ⟨rfl, rfl, rfl, rfl⟩

/-- The PC register after an assignment (PC is `mem[0]`). -/
theorem pc_setPC (st : GVM) (a : Nat) :
    (st.setPC a).pc = a % U64 := by
  unfold GVM.setPC GVM.pc
  exact aget_aset_eq st.mem 0 (a % U64)

/-- The run loop with fuel `n + 1` and instruction counter `cnt` such that
`cnt + n = limit` is exactly: at most `n` budget-free loop iterations,
followed by `ERR_OPLIMIT` if the loop would still continue. -/
theorem runAux_iterStep (hc : (Nat → Nat) → Nat → Nat) (limit : Nat) :
    ∀ n cnt st, cnt + n = limit →
      runAux hc limit (n + 1) cnt st =
        (if (iterStep hc n st).term = 0 ∧
            (iterStep hc n st).pc < (iterStep hc n st).code.size
         then (iterStep hc n st).setTerm ERR_OPLIMIT
         else iterStep hc n st) := by
  intro n
  induction n with
  | zero =>
    intro cnt st hcnt
    simp only [runAux, iterStep]
    by_cases hrun : st.term = 0 ∧ st.pc < st.code.size
    · rw [if_pos hrun, if_pos hrun, if_pos (by omega)]
    · rw [if_neg hrun, if_neg hrun]
  | succ n ih =>
    intro cnt st hcnt
    simp only [runAux, iterStep]
    by_cases hrun : st.term = 0 ∧ st.pc < st.code.size
    · rw [if_pos hrun, if_pos hrun, if_neg (by omega)]
      exact ih (cnt + 1) (step hc st) (by omega)
    · rw [if_neg hrun, if_neg hrun, if_neg hrun]

/-- Claim C8: for every code buffer, memory image and limit, `run(limit)`
terminates after dispatching at most `limit` instructions — it equals the
budget-free loop `iterStep` cut off after `limit` iterations — and whenever
those `limit` dispatches leave the machine still running (no fault, PC still
inside the code), the result is that state with `term = ERR_OPLIMIT`; the
default limit is 50,000. -/
theorem run_dispatches_at_most_limit :
    (∀ hc limit st, GVM.run hc limit st =
       (if (iterStep hc limit (st.setTerm ERR_OK)).term = 0 ∧
           (iterStep hc limit (st.setTerm ERR_OK)).pc <
             (iterStep hc limit (st.setTerm ERR_OK)).code.size
        then (iterStep hc limit (st.setTerm ERR_OK)).setTerm ERR_OPLIMIT
        else iterStep hc limit (st.setTerm ERR_OK))) ∧
    DEFAULT_OP_LIMIT = 50000 ∧
    (∀ hc st, GVM.runDefault hc st = GVM.run hc 50000 st) := by
  refine ⟨?_, rfl, fun hc st => rfl⟩
  intro hc limit st
  exact runAux_iterStep hc limit limit 0 (st.setTerm ERR_OK) (by omega)

/-- Counterexample to claim C5: instruction boundaries with
`size(code) < PC < UINT64_MAX` do occur.  A `JMP 500` in a 3-byte program
ends with `term = ERR_OK` and `PC = 500`, strictly between the code size 3
and the TERM sentinel; a non-taken `JF` at the end of a 2-byte program ends
with `PC = 4 > 2`. -/
theorem pc_escapes_code_size :
    ((GVM.run hcId 50000 (mkGVM [3, 244, 1] 0 [])).term = ERR_OK ∧
     GVM.pc (GVM.run hcId 50000 (mkGVM [3, 244, 1] 0 [])) = 500 ∧
     (GVM.run hcId 50000 (mkGVM [3, 244, 1] 0 [])).code.size = 3 ∧
     500 < U64 - 1) ∧
    ((GVM.run hcId 50000 (mkGVM [25, 65] 0 [])).term = ERR_OK ∧
     GVM.pc (GVM.run hcId 50000 (mkGVM [25, 65] 0 [])) = 4 ∧
     (GVM.run hcId 50000 (mkGVM [25, 65] 0 [])).code.size = 2) := by
  decide

/-- Claim C5 (amended): PC need not stay within `size(code)`, but any
instruction boundary with `PC ≥ size(code)` — in particular
`PC = size(code)` and the TERM sentinel — halts execution normally:
`run` returns at once with `term = ERR_OK` and the state unchanged. -/
theorem run_halts_at_or_past_end (hc : (Nat → Nat) → Nat → Nat) (limit : Nat)
    (st : GVM) (h : st.code.size ≤ st.pc) :
    GVM.run hc limit st = st.setTerm ERR_OK := by
  show runAux hc limit (limit + 1) 0 (st.setTerm ERR_OK) = st.setTerm ERR_OK
  simp only [runAux]
  rw [if_neg]
  intro hrun
  have hpc : (st.setTerm ERR_OK).pc = st.pc := rfl
  have hcode : (st.setTerm ERR_OK).code = st.code := rfl
  rw [hpc, hcode] at hrun
  omega

/-- Witness for the amended claim C5 at a concrete state: a machine whose PC
(5) is past its 1-byte code halts normally. -/
theorem run_halts_at_or_past_end_witness :
    GVM.run hcId 7 (mkGVM [0] 5 []) = (mkGVM [0] 5 []).setTerm ERR_OK :=
  run_halts_at_or_past_end hcId 7 (mkGVM [0] 5 []) (by decide)

/-- Claim C1, evaluated at the failing input: running
`PUSH 1; PUSH 1; ANDL|STACK` (bytes 17,65,17,65,138) pops both operands but
writes the result 1 into register R and pushes nothing — final operand stack
is empty — whereas the equally-encoded `OR|STACK` (byte 137) pushes its
result and leaves R alone, as the claim describes for every stack-form
opcode. -/
theorem andl_stack_writes_R_not_stack :
    ((GVM.run hcId 50000 (mkGVM [17, 65, 17, 65, 138] 0 [])).term = ERR_OK ∧
     (GVM.run hcId 50000 (mkGVM [17, 65, 17, 65, 138] 0 [])).stack = [] ∧
     aget (GVM.run hcId 50000 (mkGVM [17, 65, 17, 65, 138] 0 [])).mem 1 = 1) ∧
    ((GVM.run hcId 50000 (mkGVM [17, 65, 17, 65, 137] 0 [])).term = ERR_OK ∧
     (GVM.run hcId 50000 (mkGVM [17, 65, 17, 65, 137] 0 [])).stack = [1] ∧
     aget (GVM.run hcId 50000 (mkGVM [17, 65, 17, 65, 137] 0 [])).mem 1 = 0) := by
  decide

/-- Claim C3, evaluated at the failing input: compiling
`1 == 1 && 2 != 3` emits PUSH 1, PUSH 1, EQ, PUSH 2, PUSH 3, NE and then the
mnemonic BAND — not ANDL as the claim (and the VM opcode table) requires. -/
theorem compiler_emits_BAND_for_logical_and :
    expressionToGASM "1 == 1 && 2 != 3" =
      Except.ok ["PUSH 1", "PUSH 1", "EQ", "PUSH 2", "PUSH 3", "NE", "BAND"] := by
  decide

/-- Counterexample to claim C2: the control byte `0x83` has the REG_PTR bit
but not the SHORT_VAL bit, so its low bits ask for a 3-byte little-endian
value; decoding `[0x02, 0x83, 0x2A]` therefore runs out of code instead of
yielding operands `@3` and `42` — the disassembler aborts and the VM reader
faults with `ERR_CODESIZE` returning 0. -/
theorem set_83_2A_does_not_decode :
    disRead (#[2, 131, 42] : Array Nat) 1 false = none ∧
    (readOp (mkGVM [2, 131, 42] 1 []) false).2.term = ERR_CODESIZE ∧
    (readOp (mkGVM [2, 131, 42] 1 []) false).1 = 0 := by
  decide

/-- Claim C2 (amended): the correct encoding of `SET @3 42` is
`[0x02, 0xC3, 0x6A]` (`0xC3` = REG_PTR + SHORT_VAL + 3, `0x6A` =
SHORT_VAL + 42).  The disassembler decodes its two operands as reg-ptr 3 and
literal 42, consuming exactly the 3 bytes, and the VM's operand reader
consumes the same bytes, the first operand evaluating (through the REG_PTR
indirection) to `mem[3]` — here 7 — and the second to 42, with no fault. -/
theorem set_C3_6A_decodes_as_SET_at3_42 :
    disRead (#[2, 195, 106] : Array Nat) 1 false = some (3, true, 2) ∧
    disRead (#[2, 195, 106] : Array Nat) 2 false = some (42, false, 3) ∧
    aget stSet3.mem 3 = 7 ∧
    (readOp stSet3 false).1 = 7 ∧
    GVM.pc (readOp stSet3 false).2 = 2 ∧
    (readOp stSet3 false).2.term = ERR_OK ∧
    (readOp (readOp stSet3 false).2 false).1 = 42 ∧
    GVM.pc (readOp (readOp stSet3 false).2 false).2 = 3 ∧
    (readOp (readOp stSet3 false).2 false).2.term = ERR_OK := by
  decide

/-- Counterexample to claim C4: the lexer gives the token for the two-byte
operator lexeme a precedence of 3 — not 1 — and the compiler emits OR for
it, not ORL. -/
theorem or_or_lexes_at_3_and_emits_OR :
    exprToTokens "1 || 2" =
      Except.ok
        [{ type := .number, str := "1", precedence := -1,
           rightAssociative := false, unary := false },
         { type := .operation, str := "||", precedence := 3,
           rightAssociative := false, unary := false },
         { type := .number, str := "2", precedence := -1,
           rightAssociative := false, unary := false }] ∧
    expressionToGASM "1 || 2" = Except.ok ["PUSH 1", "PUSH 2", "OR"] := by
  decide

/-- Claim C4 (amended): the lexer deliberately treats the one- and two-byte
forms identically — both get precedence 3 (binding tighter than the
precedence-2 logical-and), in any lexical context — and the emission step
outputs OR for both lexemes; ORL is never produced by the compiler. -/
theorem or_or_same_as_or :
    (∀ u : Bool, classifyOp '|' '|' u = .ok (.operation, 3, false, false, 2)) ∧
    (∀ (u : Bool) (c2 : Char), c2 ≠ '|' →
       classifyOp '|' c2 u = .ok (.operation, 3, false, false, 1)) ∧
    binaryMnemonic "||" = .ok "OR" ∧
    binaryMnemonic "|" = .ok "OR" := by
  refine ⟨fun u => rfl, ?_, rfl, rfl⟩
  intro u c2 hne
  show (if c2 = '|' then (Except.ok (TType.operation, 3, false, false, 2) :
          Except String (TType × Int × Bool × Bool × Nat))
        else .ok (.operation, 3, false, false, 1)) =
       .ok (.operation, 3, false, false, 1)
  rw [if_neg hne]

/-- Witness for the amended claim C4 at a concrete input: classifying a
lone vertical bar (lookahead a space character). -/
theorem or_or_same_as_or_witness :
    classifyOp '|' ' ' true = .ok (.operation, 3, false, false, 1) :=
  or_or_same_as_or.2.1 true ' ' (by decide)

/-- PC assignment leaves the code buffer unchanged. -/
theorem code_setPC (st : GVM) (a : Nat) : (st.setPC a).code = st.code := rfl

/-- PC assignment leaves the call stack unchanged. -/
theorem context_setPC (st : GVM) (a : Nat) : (st.setPC a).context = st.context := rfl

/-- Decoding a jump operand with 2 bytes available: the operand is the
2-byte little-endian value at PC and PC advances by 2. -/
theorem readOp_jump (st : GVM) (h1 : st.pc + 2 ≤ st.code.size) :
    readOp st true = (leBytes st.code st.pc 2 % U64, st.setPC (st.pc + 2)) := by
  unfold readOp
  rw [if_neg (by omega)]
  norm_num
  intro h
  exact absurd h1 (by omega)

/-- Reading a register cell after the RET restore yields the snapshot cell. -/
theorem aget_restoreRegs (m : Nat → Nat) (snap : List Nat) (i : Nat) (h : i < 8) :
    aget (restoreRegs m snap) i = snap.getD i 0 := by
  have hrange : List.range REG_SIZE = [0, 1, 2, 3, 4, 5, 6, 7] := rfl
  unfold restoreRegs
  rw [hrange]
  simp only [List.foldl]
  interval_cases i <;> simp [aget_aset_eq, aget_aset_ne]

/-- A register cell of the CALL snapshot is the corresponding memory cell. -/
theorem getD_regSnapshot (m : Nat → Nat) (i : Nat) (h : i < 8) :
    (regSnapshot m).getD i 0 = aget m i := by
  have hsnap : regSnapshot m =
      [aget m 0, aget m 1, aget m 2, aget m 3,
       aget m 4, aget m 5, aget m 6, aget m 7] := rfl
  rw [hsnap]
  interval_cases i <;> rfl

/-- Claim C6: for JF (and symmetrically JT), in both the inline form and the
stack form, the condition operand is consumed first, leaving state `s1`; a
non-taken branch advances PC by exactly 2 bytes from there, and a taken
branch (with the 2 operand bytes available) sets PC to the 2-byte
little-endian jump operand found at `s1`'s PC. -/
theorem jf_jt_branch_semantics :
    (∀ hc st c s1, byteAt st.code st.pc = 25 →
       readOp (st.setPC (st.pc + 1)) false = (c, s1) →
       ((c ≠ 0 → step hc st = s1.setPC (s1.pc + 2)) ∧
        (c = 0 → s1.pc + 2 ≤ s1.code.size →
           step hc st = s1.setPC (leBytes s1.code s1.pc 2 % U64)))) ∧
    (∀ hc st c s1, byteAt st.code st.pc = 153 →
       popVal (st.setPC (st.pc + 1)) = (c, s1) →
       ((c ≠ 0 → step hc st = s1.setPC (s1.pc + 2)) ∧
        (c = 0 → s1.pc + 2 ≤ s1.code.size →
           step hc st = s1.setPC (leBytes s1.code s1.pc 2 % U64)))) ∧
    (∀ hc st c s1, byteAt st.code st.pc = 26 →
       readOp (st.setPC (st.pc + 1)) false = (c, s1) →
       ((c = 0 → step hc st = s1.setPC (s1.pc + 2)) ∧
        (c ≠ 0 → s1.pc + 2 ≤ s1.code.size →
           step hc st = s1.setPC (leBytes s1.code s1.pc 2 % U64)))) ∧
    (∀ hc st c s1, byteAt st.code st.pc = 154 →
       popVal (st.setPC (st.pc + 1)) = (c, s1) →
       ((c = 0 → step hc st = s1.setPC (s1.pc + 2)) ∧
        (c ≠ 0 → s1.pc + 2 ≤ s1.code.size →
           step hc st = s1.setPC (leBytes s1.code s1.pc 2 % U64)))) := by
  refine ⟨?_, ?_, ?_, ?_⟩
  · intro hc st c s1 hb hr
    constructor
    · intro hc0
      unfold step
      rw [hb]
      show (let r := readOp (st.setPC (st.pc + 1)) false
            if r.1 = 0 then
              let j := readOp r.2 true
              j.2.setPC j.1
            else r.2.setPC (r.2.pc + 2)) = _
      simp only [hr]
      rw [if_neg hc0]
    · intro hc0 hsz
      unfold step
      rw [hb]
      show (let r := readOp (st.setPC (st.pc + 1)) false
            if r.1 = 0 then
              let j := readOp r.2 true
              j.2.setPC j.1
            else r.2.setPC (r.2.pc + 2)) = _
      simp only [hr]
      rw [if_pos hc0, readOp_jump s1 hsz]
      exact setPC_setPC s1 (s1.pc + 2) (leBytes s1.code s1.pc 2 % U64)
  · intro hc st c s1 hb hp
    constructor
    · intro hc0
      unfold step
      rw [hb]
      show (let p := popVal (st.setPC (st.pc + 1))
            if p.1 = 0 then
              let j := readOp p.2 true
              j.2.setPC j.1
            else p.2.setPC (p.2.pc + 2)) = _
      simp only [hp]
      rw [if_neg hc0]
    · intro hc0 hsz
      unfold step
      rw [hb]
      show (let p := popVal (st.setPC (st.pc + 1))
            if p.1 = 0 then
              let j := readOp p.2 true
              j.2.setPC j.1
            else p.2.setPC (p.2.pc + 2)) = _
      simp only [hp]
      rw [if_pos hc0, readOp_jump s1 hsz]
      exact setPC_setPC s1 (s1.pc + 2) (leBytes s1.code s1.pc 2 % U64)
  · intro hc st c s1 hb hr
    constructor
    · intro hc0
      unfold step
      rw [hb]
      show (let r := readOp (st.setPC (st.pc + 1)) false
            if r.1 = 0 then r.2.setPC (r.2.pc + 2)
            else
              let j := readOp r.2 true
              j.2.setPC j.1) = _
      simp only [hr]
      rw [if_pos hc0]
    · intro hc0 hsz
      unfold step
      rw [hb]
      show (let r := readOp (st.setPC (st.pc + 1)) false
            if r.1 = 0 then r.2.setPC (r.2.pc + 2)
            else
              let j := readOp r.2 true
              j.2.setPC j.1) = _
      simp only [hr]
      rw [if_neg hc0, readOp_jump s1 hsz]
      exact setPC_setPC s1 (s1.pc + 2) (leBytes s1.code s1.pc 2 % U64)
  · intro hc st c s1 hb hp
    constructor
    · intro hc0
      unfold step
      rw [hb]
      show (let p := popVal (st.setPC (st.pc + 1))
            if p.1 = 0 then p.2.setPC (p.2.pc + 2)
            else
              let j := readOp p.2 true
              j.2.setPC j.1) = _
      simp only [hp]
      rw [if_pos hc0]
    · intro hc0 hsz
      unfold step
      rw [hb]
      show (let p := popVal (st.setPC (st.pc + 1))
            if p.1 = 0 then p.2.setPC (p.2.pc + 2)
            else
              let j := readOp p.2 true
              j.2.setPC j.1) = _
      simp only [hp]
      rw [if_neg hc0, readOp_jump s1 hsz]
      exact setPC_setPC s1 (s1.pc + 2) (leBytes s1.code s1.pc 2 % U64)

/-- Witness for claim C6 at concrete machines: a non-taken inline JF
(condition 1) advances PC by 2 past the condition operand, and a taken
inline JF (condition 0) jumps to the decoded 2-byte address. -/
theorem jf_jt_branch_semantics_witness :
    step hcId stJFw = s1JFw.setPC (s1JFw.pc + 2) ∧
    step hcId stJFt = s1JFt.setPC (leBytes s1JFt.code s1JFt.pc 2 % U64) := by
  constructor
  · exact (jf_jt_branch_semantics.1 hcId stJFw
      (readOp (stJFw.setPC (stJFw.pc + 1)) false).1 s1JFw (by decide) rfl).1 (by decide)
  · exact (jf_jt_branch_semantics.1 hcId stJFt
      (readOp (stJFt.setPC (stJFt.pc + 1)) false).1 s1JFt (by decide) rfl).2
      (by decide) (by decide)

/-- Claim C7: CALL pushes onto the call stack the snapshot of the 8 register
words as they are at the moment of CALL — that is, with PC already advanced
just past the CALL instruction's 2-byte operand — and then jumps; RET, when
the top of the call stack is such a snapshot and nothing modified it in
between, restores all 8 register words exactly from the snapshot, except
that R (register 1) is overwritten with RET's decoded operand value. -/
theorem call_ret_restores_registers :
    (∀ hc st, byteAt st.code st.pc = 23 →
       st.pc + 3 ≤ st.code.size → st.code.size ≤ 65536 →
       step hc st =
         { st.setPC (leBytes st.code (st.pc + 1) 2 % U64) with
           context := regSnapshot (st.setPC (st.pc + 3)).mem :: st.context }) ∧
    (∀ hc st2 v s1 mem0 rest, byteAt st2.code st2.pc = 24 →
       readOp (st2.setPC (st2.pc + 1)) false = (v, s1) →
       s1.context = regSnapshot mem0 :: rest →
       ((step hc st2).context = rest ∧
        ∀ i, i < 8 →
          aget (step hc st2).mem i = if i = 1 then v % U64 else aget mem0 i)) := by
  constructor
  · intro hc st hb h3 hsz
    have hpc1 : (st.setPC (st.pc + 1)).pc = st.pc + 1 := by
      rw [pc_setPC]
      exact Nat.mod_eq_of_lt
        (lt_of_le_of_lt (show st.pc + 1 ≤ 65537 by omega) (by norm_num [U64]))
    have hcond : (st.setPC (st.pc + 1)).pc + 2 ≤ (st.setPC (st.pc + 1)).code.size := by
      rw [hpc1, code_setPC]
      omega
    have hjump : readOp (st.setPC (st.pc + 1)) true =
        (leBytes st.code (st.pc + 1) 2 % U64, st.setPC (st.pc + 3)) := by
      rw [readOp_jump (st.setPC (st.pc + 1)) hcond]
      rw [hpc1, code_setPC, setPC_setPC]
    unfold step
    rw [hb]
    show (let r := readOp (st.setPC (st.pc + 1)) true
          let s1 := { r.2 with context := regSnapshot r.2.mem :: r.2.context }
          s1.setPC r.1) = _
    simp only [hjump]
    simp [GVM.setPC, aset_aset, context_setPC]
  · intro hc st2 v s1 mem0 rest hb hr hctx
    have hstep : step hc st2 =
        { s1 with mem := aset (restoreRegs s1.mem (regSnapshot mem0)) 1 (v % U64),
                  context := rest } := by
      unfold step
      rw [hb]
      show (let r := readOp (st2.setPC (st2.pc + 1)) false
            match r.2.context with
            | [] => r.2.setTerm ERR_RET
            | snap :: rest2 =>
              { r.2 with mem := aset (restoreRegs r.2.mem snap) 1 (r.1 % U64),
                         context := rest2 }) = _
      simp only [hr]
      simp only [hctx]
    rw [hstep]
    refine ⟨rfl, ?_⟩
    intro i hi
    show aget (aset (restoreRegs s1.mem (regSnapshot mem0)) 1 (v % U64)) i
        = if i = 1 then v % U64 else aget mem0 i
    by_cases h1 : i = 1
    · subst h1
      rw [aget_aset_eq, if_pos rfl]
    · rw [aget_aset_ne _ _ _ _ (fun hh => h1 hh.symm), if_neg h1,
          aget_restoreRegs s1.mem (regSnapshot mem0) i hi,
          getD_regSnapshot mem0 i hi]

/-- Witness for claim C7 at concrete machines: CALL 3 in a 3-byte program
pushes the snapshot whose PC cell is 3 (just past the operand) and jumps;
RET 0 on a machine whose saved snapshot is the register file 100..107 pops
the call stack and restores register 2 to 102 (not R, which takes the
return value). -/
theorem call_ret_restores_registers_witness :
    (step hcId stCallw =
       { stCallw.setPC (leBytes stCallw.code (stCallw.pc + 1) 2 % U64) with
         context := regSnapshot (stCallw.setPC (stCallw.pc + 3)).mem :: stCallw.context }) ∧
    (step hcId stRetw).context = [] ∧
    aget (step hcId stRetw).mem 2 = if 2 = 1 then vRetw % U64 else aget memRetw 2 := by
  refine ⟨?_, ?_, ?_⟩
  · exact call_ret_restores_registers.1 hcId stCallw (by decide) (by decide) (by decide)
  · exact (call_ret_restores_registers.2 hcId stRetw vRetw s1Retw memRetw []
      (by decide) rfl (by decide)).1
  · exact (call_ret_restores_registers.2 hcId stRetw vRetw s1Retw memRetw []
      (by decide) rfl (by decide)).2 2 (by decide)

/-- Claim C9: POP on an empty operand stack sets `term = ERR_UNDERFLOW` and
still performs the destination write — the (in-bounds) destination cell is
overwritten with 0, and the stack stays empty. -/
theorem pop_underflow_writes_zero :
    ∀ hc st dst s1, byteAt st.code st.pc = 18 →
      readOp (st.setPC (st.pc + 1)) false = (dst, s1) →
      s1.stack = [] → dst < MEM_SIZE →
      (step hc st).term = ERR_UNDERFLOW ∧
      aget (step hc st).mem dst = 0 ∧ (step hc st).stack = [] := by
  intro hc st dst s1 hb hr hs hlt
  have hstep : step hc st =
      { s1 with term := ERR_UNDERFLOW, mem := aset s1.mem dst (0 % U64) } := by
    unfold step
    rw [hb]
    show (let r := readOp (st.setPC (st.pc + 1)) false
          let p := popVal r.2
          setMem p.2 r.1 p.1) = _
    simp only [hr]
    show setMem (popVal s1).2 dst (popVal s1).1 = _
    simp only [popVal, hs]
    unfold setMem
    rw [if_pos hlt]
    simp [GVM.setTerm, hs]
  rw [hstep]
  refine ⟨rfl, ?_, hs⟩
  show aget (aset s1.mem dst (0 % U64)) dst = 0
  rw [aget_aset_eq]
  exact Nat.zero_mod U64

/-- Witness for claim C9 at a concrete machine: POP 3 with an empty stack
faults with `ERR_UNDERFLOW` and overwrites `mem[3]` (previously 7) with 0. -/
theorem pop_underflow_writes_zero_witness :
    aget stPopw.mem dstPopw = 7 ∧
    ((step hcId stPopw).term = ERR_UNDERFLOW ∧
     aget (step hcId stPopw).mem dstPopw = 0 ∧ (step hcId stPopw).stack = []) :=
  ⟨by decide,
   pop_underflow_writes_zero hcId stPopw dstPopw s1Popw (by decide) rfl
     (by decide) (by decide)⟩

/-- Claim C10: every memory access through an index ≥ 1024 sets
`term = ERR_SEGFAULT` and is redirected to register R (cell 1): reads yield
R's value, writes land in R, and in particular a SET whose decoded
destination is out of bounds clobbers R with the source value; no cell
outside the redirect is touched. -/
theorem segfault_redirects_to_R :
    (∀ st idx, MEM_SIZE ≤ idx →
       getVal st idx = (aget st.mem 1, st.setTerm ERR_SEGFAULT)) ∧
    (∀ st idx v, MEM_SIZE ≤ idx →
       setMem st idx v =
         { st with term := ERR_SEGFAULT, mem := aset st.mem 1 (v % U64) }) ∧
    (∀ hc st dst src s1 s2, byteAt st.code st.pc = 2 →
       readOp (st.setPC (st.pc + 1)) false = (dst, s1) →
       readOp s1 false = (src, s2) →
       MEM_SIZE ≤ dst →
       step hc st =
         { s2 with term := ERR_SEGFAULT, mem := aset s2.mem 1 (src % U64) }) := by
  refine ⟨?_, ?_, ?_⟩
  · intro st idx h
    unfold getVal
    rw [if_neg (by omega)]
  · intro st idx v h
    unfold setMem
    rw [if_neg (by omega)]
  · intro hc st dst src s1 s2 hb hr1 hr2 hge
    unfold step
    rw [hb]
    show (let r1 := readOp (st.setPC (st.pc + 1)) false
          let r2 := readOp r1.2 false
          setMem r2.2 r1.1 r2.1) = _
    simp only [hr1, hr2]
    unfold setMem
    rw [if_neg (by omega)]

/-- Witness for claim C10 at concrete inputs: reading and writing index 2000
redirect to register R with `ERR_SEGFAULT`, and executing SET 2000 5 lands
the source value 5 in R. -/
theorem segfault_redirects_to_R_witness :
    getVal stSegw 2000 = (aget stSegw.mem 1, stSegw.setTerm ERR_SEGFAULT) ∧
    setMem stSegw 2000 5 =
      { stSegw with term := ERR_SEGFAULT, mem := aset stSegw.mem 1 (5 % U64) } ∧
    step hcId stSegw =
      { s2Segw with term := ERR_SEGFAULT, mem := aset s2Segw.mem 1 (srcSegw % U64) } := by
  refine ⟨?_, ?_, ?_⟩
  · exact segfault_redirects_to_R.1 stSegw 2000 (by decide)
  · exact segfault_redirects_to_R.2.1 stSegw 2000 5 (by decide)
  · exact segfault_redirects_to_R.2.2 hcId stSegw dstSegw srcSegw s1Segw s2Segw
      (by decide) rfl rfl (by decide)
